import Mathlib

/-!
Shallow embedding of the kastela-sdk-node client wire contract.

The repository contains several near-duplicate client revisions.  All of
them funnel every endpoint through a private request dispatcher of the
shape

  try - perform one axios request; on a 2xx response read the
  x-kastela-version header and accept iff
  semver.satisfies(actual, "vMAJ.MIN || v0.0.0"),
  returning the parsed body, otherwise throwing a version-mismatch error;
  catch - read error.response.data; if truthy, rethrow a fresh error
  whose message is data.error for object bodies and String(data) for
  plain bodies; otherwise rethrow the original error unchanged.

The crypto-capable revision (src/unnamed/part_001, first Client class)
omits the version check entirely: its dispatcher returns the body of any
2xx response.

The embedding models JSON bodies as an inductive value type, the axios
transport outcome as either an HTTP response (any status) or a transport
fault carrying only a message, and a JavaScript Error as a message plus
an optional attached HTTP response.
-/

/-- JSON-like runtime value, covering the bodies the client sends and
receives. Numbers are modelled as integers, which covers every numeric
value appearing in the contract. -/
inductive JValue where
  | str (s : String)
  | num (n : Int)
  | bool (b : Bool)
  | null
  | arr (xs : List JValue)
  | obj (fields : List (String × JValue))

/-- HTTP response as delivered by the axios transport: status code,
parsed body, and the value of the x-kastela-version header (none when
the header is absent, i.e. undefined in JavaScript). -/
structure HttpResponse where
  status : Nat
  body : JValue
  versionHeader : Option String

/-- JavaScript Error value as the dispatcher observes it: the message
string and, for axios rejections caused by a non-2xx response, the
attached response. Errors created with new Error carry no response. -/
structure JsError where
  message : String
  response : Option HttpResponse

/-- Outcome of the single network attempt: either an HTTP response of
any status, or a transport fault (DNS/connection/TLS failure) that
carries no response, only its own message. -/
inductive TransportResult where
  | response (r : HttpResponse)
  | fault (message : String)

/-- JavaScript truthiness of a body value, as tested by the catch
branch of the dispatcher with if (data). Objects and arrays are always
truthy; empty strings, zero, false and null are falsy. -/
def jsTruthy : JValue → Bool
  | .str s => decide (s ≠ "")
  | .num n => decide (n ≠ 0)
  | .bool b => b
  | .null => false
  | .arr _ => true
  | .obj _ => true

mutual

/-- JavaScript String() conversion of a body value, used by the Error
constructor. Arrays stringify as their comma-joined elements, objects as
the tag string JavaScript prints for plain objects. -/
def jsToString : JValue → String
  | .str s => s
  | .num n => toString n
  | .bool b => cond b "true" "false"
  | .null => "null"
  | .arr xs => jsToStringArr xs
  | .obj _ => "[object Object]"

/-- Comma join used by JavaScript Array.prototype.toString; null
elements stringify as the empty string. -/
def jsToStringArr : List JValue → String
  | [] => ""
  | [JValue.null] => ""
  | [x] => jsToString x
  | JValue.null :: xs => "," ++ jsToStringArr xs
  | x :: xs => jsToString x ++ "," ++ jsToStringArr xs

end

/-- Property lookup on a JavaScript object literal (first binding wins;
the object literals built by this client never repeat a key). none
models an absent property, i.e. undefined. -/
def jLookup : List (String × JValue) → String → Option JValue
  | [], _ => none
  | (k, v) :: rest, key => if k = key then some v else jLookup rest key

/-- Property access data.error on a parsed body, as performed by the
object branch of the catch handler. Only objects have named
properties; arrays have no error property. -/
def jGetError : JValue → Option JValue
  | .obj fields => jLookup fields "error"
  | _ => none

/-- Axios default success predicate: a status is accepted iff it lies
in the 2xx range (validateStatus: 200 <= s < 300). -/
def statusOk (s : Nat) : Bool := decide (200 ≤ s ∧ s < 300)

/-- Message of the error axios attaches to a non-2xx rejection. -/
def axiosFailureMessage (status : Nat) : String :=
  "Request failed with status code " ++ toString status

/-- Model of the axios transport call made by the dispatcher: a 2xx
response resolves with the response, a non-2xx response rejects with an
error carrying that response, and a transport fault rejects with an
error carrying no response. -/
def axiosRequest : TransportResult → Except JsError HttpResponse
  | .fault m => .error { message := m, response := none }
  | .response r =>
    if statusOk r.status then .ok r
    else .error { message := axiosFailureMessage r.status, response := some r }

/-- Split of a character list at every dot, keeping empty segments,
mirroring the dot structure the semver grammar assigns to a version
core. -/
def splitDot : List Char → List (List Char)
  | [] => [[]]
  | c :: rest =>
    let r := splitDot rest
    if c = '.' then [] :: r
    else (c :: r.headD []) :: r.tail

/-- Decimal value of a digit run; any non-digit character rejects the
whole run. -/
def digitsVal : List Char → Nat → Option Nat
  | [], acc => some acc
  | c :: rest, acc =>
    if c.isDigit then digitsVal rest (acc * 10 + (c.toNat - 48)) else none

/-- Strict numeric semver identifier: nonempty, all digits, no leading
zeros (the semver grammar for version-core components). -/
def semverNumericChars : List Char → Option Nat
  | [] => none
  | ['0'] => some 0
  | '0' :: _ => none
  | cs => digitsVal cs 0

/-- Longest leading digit run of a character list together with the
remainder, the greedy consumption the semver version grammar performs
on a numeric component. -/
def takeDigits : List Char → List Char × List Char
  | [] => ([], [])
  | c :: rest =>
    if c.isDigit then
      let (ds, rem) := takeDigits rest
      (c :: ds, rem)
    else ([], c :: rest)

/-- Characters permitted in semver prerelease and build identifiers:
ASCII digits, ASCII letters and the hyphen. -/
def semverIdentChar (c : Char) : Bool := c.isDigit || c.isAlpha || c = '-'

/-- Prerelease identifier of the semver grammar: nonempty, over the
identifier alphabet, and free of leading zeros when fully numeric
(otherwise it must contain a letter or hyphen, which any non-digit
character over the alphabet supplies). -/
def validPreIdent (seg : List Char) : Bool :=
  !seg.isEmpty && seg.all semverIdentChar &&
    (!seg.all Char.isDigit || (semverNumericChars seg).isSome)

/-- Dot-separated prerelease identifier list of the semver grammar. -/
def validPreChars (cs : List Char) : Bool :=
  (splitDot cs).all validPreIdent

/-- Build identifier list of the semver grammar: dot-separated,
nonempty identifiers over the identifier alphabet. -/
def validBuildChars (cs : List Char) : Bool :=
  (splitDot cs).all fun seg => !seg.isEmpty && seg.all semverIdentChar

/-- Split at the first plus sign, separating the prerelease part of a
version suffix from its optional build part (prerelease identifiers
may contain hyphens and dots but never a plus). -/
def splitAtPlus : List Char → List Char × Option (List Char)
  | [] => ([], none)
  | c :: rest =>
    if c = '+' then ([], some rest)
    else
      let (a, b) := splitAtPlus rest
      (c :: a, b)

/-- Components of a version accepted by the full semver grammar:
major, minor and patch values plus whether a prerelease part is
present. Build metadata is validated but carried no further, because
version comparison ignores it. -/
structure SemverParts where
  major : Nat
  minor : Nat
  patch : Nat
  hasPre : Bool

/-- Version parse following the full grammar of the semver library: an
optional leading lowercase v, three dot-separated numeric identifiers
without leading zeros, then optionally a hyphen-led prerelease
identifier list and a plus-led build identifier list. Numeric values
are kept exact here; the MAX_SAFE_INTEGER bound the library enforces
on each component is applied by the caller. -/
def parseSemverFull (cs : List Char) : Option SemverParts :=
  let cs := match cs with
    | 'v' :: rest => rest
    | _ => cs
  let (d1, r1) := takeDigits cs
  match semverNumericChars d1 with
  | none => none
  | some mj =>
    match r1 with
    | '.' :: r2 =>
      let (d2, r3) := takeDigits r2
      match semverNumericChars d2 with
      | none => none
      | some mn =>
        match r3 with
        | '.' :: r4 =>
          let (d3, r5) := takeDigits r4
          match semverNumericChars d3 with
          | none => none
          | some pt =>
            match r5 with
            | [] => some ⟨mj, mn, pt, false⟩
            | '-' :: rest =>
              let (pre, bld) := splitAtPlus rest
              if validPreChars pre &&
                  (match bld with
                   | some b => validBuildChars b
                   | none => true) then
                some ⟨mj, mn, pt, true⟩
              else none
            | '+' :: rest =>
              if validBuildChars rest then some ⟨mj, mn, pt, false⟩
              else none
            | _ => none
        | _ => none
    | _ => none

/-- JavaScript whitespace as removed by String.prototype.trim: the
WhiteSpace set (tab, vertical tab, form feed, space, no-break space,
byte order mark and the Unicode space separators) together with the
LineTerminator set. -/
def jsWhitespaceChar (c : Char) : Bool :=
  decide ((9 ≤ c.val ∧ c.val ≤ 13) ∨ c.val = 32 ∨ c.val = 160 ∨
    c.val = 0x1680 ∨ (0x2000 ≤ c.val ∧ c.val ≤ 0x200a) ∨
    c.val = 0x2028 ∨ c.val = 0x2029 ∨ c.val = 0x202f ∨
    c.val = 0x205f ∨ c.val = 0x3000 ∨ c.val = 0xfeff)

/-- JavaScript String.prototype.trim on a character list, applied by
the SemVer constructor before matching the version grammar. -/
def jsTrimChars (cs : List Char) : List Char :=
  ((cs.dropWhile jsWhitespaceChar).reverse.dropWhile jsWhitespaceChar).reverse

/-- Largest numeric component the semver library accepts,
Number.MAX_SAFE_INTEGER: the SemVer constructor throws on any larger
component, which Range.test turns into rejection. Digit strings at or
below the bound convert to JavaScript numbers exactly, and digit
strings above it round to values still above it, so the exact
comparison is faithful. -/
def maxSafeInteger : Nat := 9007199254740991

/-- Model of semver.satisfies(actual, "v<mj>.<mn> || v0.0.0") as
called by the version-guarded dispatchers. Range.test rejects a
missing (undefined) header outright. A present header is rejected when
longer than the 256-character limit of the SemVer constructor (counted
here in characters, which matches the library verdict because every
version the grammar accepts is ASCII), then trimmed and parsed by the
full version grammar; a failed parse or an overlarge numeric component
makes the constructor throw, which satisfies reports as false. A
prerelease version never satisfies these ranges: the expected line
desugars to comparators whose only prerelease bound sits on the next
minor tuple, and the sentinel comparator carries no prerelease, so the
prerelease-exclusion rule rejects every candidate. Build metadata is
ignored by comparison, so an accepted version satisfies the range iff
it lies on the expected major.minor line or is exactly the sentinel
0.0.0. -/
def semverSatisfiesLine (mj mn : Nat) (actual : Option String) : Bool :=
  match actual with
  | none => false
  | some s =>
    if 256 < s.length then false
    else
      match parseSemverFull (jsTrimChars s.data) with
      | none => false
      | some p =>
        if maxSafeInteger < p.major ∨ maxSafeInteger < p.minor ∨
            maxSafeInteger < p.patch then false
        else if p.hasPre then false
        else (p.major == mj && p.minor == mn) ||
          (p.major == 0 && p.minor == 0 && p.patch == 0)

/-- Rendering of the actual version inside the mismatch message: a
JavaScript template literal prints an undefined header as the text
undefined. -/
def versionHeaderText : Option String → String
  | some v => v
  | none => "undefined"

/-- Version-mismatch message built by the dispatcher. -/
def mismatchMessage (expected : String) (actual : Option String) : String :=
  "kastela server version mismatch, expected: " ++ expected ++
    ".x, actual: " ++ versionHeaderText actual

/-- Catch branch of the dispatcher: reads error.response.data; when it
is truthy, throws a fresh Error built from data.error for object-typed
bodies (undefined yields the empty default message; arrays are
object-typed and have no error property) or from String(data) for
plain bodies; when falsy or absent, rethrows the original error. -/
def catchHandler (e : JsError) : JsError :=
  match e.response with
  | none => e
  | some r =>
    if jsTruthy r.body then
      match r.body with
      | .obj fields =>
        { message :=
            match jLookup fields "error" with
            | some v => jsToString v
            | none => ""
          response := none }
      | .arr _ => { message := "", response := none }
      | d => { message := jsToString d, response := none }
    else e

/-- Try block of the version-guarded dispatcher, parameterised over the
version-acceptance predicate and the expected-version string used in
the mismatch message. -/
def requestTry (satisfies : Option String → Bool) (expected : String)
    (t : TransportResult) : Except JsError JValue :=
  match axiosRequest t with
  | .error e => .error e
  | .ok resp =>
    if satisfies resp.versionHeader then .ok resp.body
    else .error { message := mismatchMessage expected resp.versionHeader
                  response := none }

/-- Version-guarded request dispatcher shared by src/index.ts
(expected line v0.2), src/unnamed/part_000 (v0.0) and the second,
batched client of src/unnamed/part_001 (v0.2): try block followed by
the error-normalising catch handler. -/
def request (satisfies : Option String → Bool) (expected : String)
    (t : TransportResult) : Except JsError JValue :=
  match requestTry satisfies expected t with
  | .ok d => .ok d
  | .error e => .error (catchHandler e)

/-- Dispatcher of src/index.ts, whose build constant is v0.2. -/
def kastelaRequest : TransportResult → Except JsError JValue :=
  request (semverSatisfiesLine 0 2) "v0.2"

/-- Dispatcher of the crypto-capable client revision
(src/unnamed/part_001, first Client class, lines 140-161): the try
block returns the parsed body of any resolved (2xx) response with no
version check at all, and the catch branch is the same error
normaliser. -/
def requestCryptoRevision (t : TransportResult) : Except JsError JValue :=
  match axiosRequest t with
  | .ok resp => .ok resp.body
  | .error e => .error (catchHandler e)

/-- One outgoing request as handed to the dispatcher: HTTP method,
path, optional wire body. -/
structure RequestEnvelope where
  method : String
  path : String
  body : Option JValue

/-- Vault base path shared by all revisions. -/
def vaultPath : String := "/api/vault"

/-- Query-parameter list built by vaultFetch in src/index.ts: search is
always set; size is appended only when truthy (present and nonzero);
after is appended only when truthy (present and nonempty). Insertion
order is search, size, after. -/
def vaultFetchQuery (search : String) (size : Option Int)
    (after : Option String) : List (String × String) :=
  [("search", search)]
    ++ (match size with
        | some n => if n = 0 then [] else [("size", toString n)]
        | none => [])
    ++ (match after with
        | some a => if a = "" then [] else [("after", a)]
        | none => [])

/-- URLSearchParams.toString on the pairs built by vaultFetch; the
values used by this client need no percent-encoding, on which the
encoding is the identity. -/
def serializeQuery (ps : List (String × String)) : String :=
  String.intercalate "&" (ps.map fun kv => kv.fst ++ "=" ++ kv.snd)

/-- Wire body built by vaultFetch of the batched revision
(src/unnamed/part_001): vault_id and search always present, size only
when truthy, after only when present with positive length. -/
def vaultFetchBodyV2 (vaultID : String) (search : JValue)
    (size : Option Int) (after : Option String) : List (String × JValue) :=
  [("vault_id", .str vaultID), ("search", search)]
    ++ (match size with
        | some n => if n = 0 then [] else [("size", JValue.num n)]
        | none => [])
    ++ (match after with
        | some a => if a = "" then [] else [("after", JValue.str a)]
        | none => [])

/-- Typed input of the batched vaultStore (vaultStoreInput in
src/unnamed/part_001). -/
structure VaultStoreInputV2 where
  vaultID : String
  values : List JValue

/-- Wire body sent by the batched vaultStore: the elementwise rename of
vaultID to vault_id with values passed through. -/
def vaultStoreWireBody (input : List VaultStoreInputV2) : JValue :=
  .arr (input.map fun v =>
    .obj [("vault_id", .str v.vaultID), ("values", .arr v.values)])

/-- Request envelope produced by the batched vaultStore. -/
def vaultStoreEnvelopeV2 (input : List VaultStoreInputV2) : RequestEnvelope :=
  { method := "POST"
    path := vaultPath ++ "/store"
    body := some (vaultStoreWireBody input) }

/-- Property access data.k on a parsed body value; none models the
undefined result of reading a property that is absent or of a
non-object value. -/
def jGetProp (data : JValue) (k : String) : Option JValue :=
  match data with
  | .obj fields => jLookup fields k
  | _ => none

/-- Destructuring of the batched vaultStore response: the tokens
property of the parsed body, returned to the caller as-is. -/
def vaultStoreResponseTokens (data : JValue) : Option JValue :=
  jGetProp data "tokens"

/-- Body type accepted by the generic proxy operation. -/
inductive ProxyType where
  | json
  | xml
deriving DecidableEq

/-- Wire text of the proxy body type. -/
def ProxyType.wire : ProxyType → String
  | .json => "json"
  | .xml => "xml"

/-- Options object of privacyProxyRequest; absent fields are undefined
and are dropped from the serialised wire body. -/
structure ProxyOptions where
  headers : Option JValue
  params : Option JValue
  body : Option JValue
  query : Option JValue
  rootTag : Option String

/-- JavaScript falsiness of an optional string: undefined and the empty
string are falsy, as tested by the rootTag guard. -/
def jsFalsyOptStr : Option String → Bool
  | none => true
  | some s => decide (s = "")

/-- Key-value pair present only when the optional value is defined,
modelling JSON serialisation dropping undefined properties. -/
def optField (k : String) : Option JValue → List (String × JValue)
  | some v => [(k, v)]
  | none => []

/-- Wire body sent by privacyProxyRequest (src/index.ts and both
clients of src/unnamed/part_001): type, url, method, common and the
options object. -/
def privacyProxyWireBody (ty : ProxyType) (url method : String)
    (common : JValue) (options : ProxyOptions) : JValue :=
  .obj [("type", .str ty.wire), ("url", .str url), ("method", .str method),
        ("common", common),
        ("options", .obj (optField "headers" options.headers
          ++ optField "params" options.params
          ++ optField "body" options.body
          ++ optField "query" options.query
          ++ optField "rootTag" (options.rootTag.map JValue.str)))]

/-- Trace of privacyProxyRequest up to its dispatcher call: the list of
network requests it issues together with the local validation error, if
any. An xml request without a truthy rootTag throws before any network
request is built. -/
def privacyProxyRequestTrace (ty : ProxyType) (url method : String)
    (common : JValue) (options : ProxyOptions) :
    List RequestEnvelope × Option String :=
  if ty = ProxyType.xml ∧ jsFalsyOptStr options.rootTag then
    ([], some "rootTag is required for xml")
  else
    ([{ method := "POST", path := "/api/proxy"
        body := some (privacyProxyWireBody ty url method common options) }],
     none)

/-- Wire body sent by privacyProxy of src/unnamed/part_000, which
spreads all fields at the top level of the body. -/
def privacyProxyWireBodyV0 (ty : ProxyType) (url method : String)
    (common : JValue) (options : ProxyOptions) : JValue :=
  .obj ([("type", .str ty.wire), ("url", .str url), ("method", .str method)]
    ++ optField "headers" options.headers
    ++ optField "params" options.params
    ++ optField "body" options.body
    ++ optField "query" options.query
    ++ [("common", common)]
    ++ optField "rootTag" (options.rootTag.map JValue.str))

/-- Trace of privacyProxy (src/unnamed/part_000) up to its dispatcher
call, with the same rootTag guard. -/
def privacyProxyTraceV0 (ty : ProxyType) (url method : String)
    (common : JValue) (options : ProxyOptions) :
    List RequestEnvelope × Option String :=
  if ty = ProxyType.xml ∧ jsFalsyOptStr options.rootTag then
    ([], some "rootTag is required for xml")
  else
    ([{ method := "POST", path := "/api/proxy"
        body := some (privacyProxyWireBodyV0 ty url method common options) }],
     none)

/-! Theorems settling the claims. -/

/-- C1: for every call to the version-guarded request dispatcher, if
the HTTP response has a 2xx status and its x-kastela-version header
satisfies the expected version line (for the src/index.ts build, v0.2)
or is exactly the sentinel v0.0.0, then the parsed response body is
returned to the caller unchanged. -/
theorem request_success_returns_body (mj mn : Nat) (expected : String)
    (r : HttpResponse) (hs : statusOk r.status = true)
    (hv : semverSatisfiesLine mj mn r.versionHeader = true) :
    request (semverSatisfiesLine mj mn) expected (.response r)
      = Except.ok r.body := by
  simp [request, requestTry, axiosRequest, hs, hv]

/-- C1 witness: a concrete 200 response with header v0.2.7 against the
v0.2 build returns its body. -/
theorem request_success_returns_body_witness :
    request (semverSatisfiesLine 0 2) "v0.2"
        (.response { status := 200, body := JValue.str "payload"
                     versionHeader := some "v0.2.7" })
      = Except.ok (JValue.str "payload") :=
  request_success_returns_body 0 2 "v0.2"
    { status := 200, body := JValue.str "payload"
      versionHeader := some "v0.2.7" }
    (by decide) (by decide)

/-- C2: for every call to the version-guarded dispatcher, a 2xx
response whose version header neither satisfies the expected line nor
is the sentinel yields a thrown error whose message contains both the
expected and the actual version strings; the parsed body is not
returned, and the mismatch error passes the catch branch unchanged
because it carries no response. -/
theorem request_version_mismatch_throws (mj mn : Nat) (expected : String)
    (r : HttpResponse) (v : String) (hs : statusOk r.status = true)
    (hv : r.versionHeader = some v)
    (hsat : semverSatisfiesLine mj mn (some v) = false) :
    request (semverSatisfiesLine mj mn) expected (.response r)
        = Except.error { message := mismatchMessage expected (some v)
                         response := none }
      ∧ (∃ p q, mismatchMessage expected (some v) = p ++ expected ++ q)
      ∧ (∃ p q, mismatchMessage expected (some v) = p ++ v ++ q) := by
  refine ⟨?_, ?_, ?_⟩
  · simp [request, requestTry, axiosRequest, hs, hv, hsat, catchHandler]
  · exact ⟨"kastela server version mismatch, expected: ", ".x, actual: " ++ v,
      by simp [mismatchMessage, versionHeaderText, String.append_assoc]⟩
  · exact ⟨"kastela server version mismatch, expected: " ++ expected ++ ".x, actual: ", "",
      by simp [mismatchMessage, versionHeaderText, String.append_empty, String.append_assoc]⟩

/-- C2 witness: a concrete 200 response with header v1.4.0 against the
v0.2 build is rejected with the mismatch message. -/
theorem request_version_mismatch_throws_witness :
    (request (semverSatisfiesLine 0 2) "v0.2"
        (.response { status := 200, body := JValue.str "payload"
                     versionHeader := some "v1.4.0" })
        = Except.error { message := mismatchMessage "v0.2" (some "v1.4.0")
                         response := none })
      ∧ (∃ p q, mismatchMessage "v0.2" (some "v1.4.0") = p ++ "v0.2" ++ q)
      ∧ (∃ p q, mismatchMessage "v0.2" (some "v1.4.0") = p ++ "v1.4.0" ++ q) :=
  request_version_mismatch_throws 0 2 "v0.2"
    { status := 200, body := JValue.str "payload", versionHeader := some "v1.4.0" }
    "v1.4.0" (by decide) rfl (by decide)

/-- C3 counterexample: the crypto-capable revision dispatcher returns
the body of a 2xx response whose version header v9.9.9 satisfies no
revision version line (neither v0.2 nor v0.0, nor the sentinel), so a
response reaches the caller without passing the Version Guard. -/
theorem cryptoRevision_returns_without_guard :
    requestCryptoRevision
        (.response { status := 200, body := JValue.str "secret"
                     versionHeader := some "v9.9.9" })
        = Except.ok (JValue.str "secret")
      ∧ semverSatisfiesLine 0 2 (some "v9.9.9") = false
      ∧ semverSatisfiesLine 0 0 (some "v9.9.9") = false :=
  ⟨rfl, by decide, by decide⟩

/-- C3 amended: in the version-guarded client revisions, the dispatcher
returns a body to the caller only for a 2xx response whose version
header passes the Version Guard; the crypto-capable revision performs
no such check. -/
theorem guarded_request_ok_requires_guard (sat : Option String → Bool)
    (expected : String) (t : TransportResult) (d : JValue)
    (h : request sat expected t = Except.ok d) :
    ∃ r, t = TransportResult.response r ∧ statusOk r.status = true
      ∧ sat r.versionHeader = true ∧ d = r.body := by
  cases t with
  | fault m => simp [request, requestTry, axiosRequest] at h
  | response r =>
    cases hs : statusOk r.status with
    | false => simp [request, requestTry, axiosRequest, hs] at h
    | true =>
      cases hv : sat r.versionHeader with
      | false => simp [request, requestTry, axiosRequest, hs, hv, catchHandler] at h
      | true =>
        simp [request, requestTry, axiosRequest, hs, hv] at h
        exact ⟨r, rfl, hs, hv, h.symm⟩

/-- C3 amended witness: a guarded success at a concrete 2xx response
with a passing header exhibits the guaranteed decomposition. -/
theorem guarded_request_ok_requires_guard_witness :
    ∃ r, TransportResult.response { status := 200, body := JValue.str "d"
                                    versionHeader := some "v0.2.0" }
          = TransportResult.response r
      ∧ statusOk r.status = true
      ∧ semverSatisfiesLine 0 2 r.versionHeader = true
      ∧ JValue.str "d" = r.body :=
  guarded_request_ok_requires_guard (semverSatisfiesLine 0 2) "v0.2"
    (.response { status := 200, body := JValue.str "d", versionHeader := some "v0.2.0" })
    (JValue.str "d") rfl

/-- C4 counterexample: a 400 response whose body is the plain string
Y equal to the empty string is falsy, so the catch branch rethrows the
underlying axios error, whose message is the axios status text and not
the body string. -/
theorem nonsuccess_empty_body_keeps_transport_error :
    kastelaRequest (.response { status := 400, body := JValue.str ""
                                versionHeader := none })
        = Except.error { message := axiosFailureMessage 400
                         response := some { status := 400, body := JValue.str ""
                                            versionHeader := none } }
      ∧ axiosFailureMessage 400 ≠ "" :=
  ⟨rfl, by decide⟩

/-- C4 amended: a non-2xx response with a structured body carrying an
error field X throws an error with message exactly X, and a non-2xx
response whose body is a nonempty plain string Y throws an error with
message Y; an empty string body instead rethrows the underlying axios
error. -/
theorem nonsuccess_error_messages (status : Nat) (hdr : Option String)
    (X Y : String) (hs : statusOk status = false) (hY : Y ≠ "") :
    kastelaRequest (.response { status := status
                                body := JValue.obj [("error", JValue.str X)]
                                versionHeader := hdr })
        = Except.error { message := X, response := none }
      ∧ kastelaRequest (.response { status := status, body := JValue.str Y
                                    versionHeader := hdr })
        = Except.error { message := Y, response := none } := by
  constructor
  · simp [kastelaRequest, request, requestTry, axiosRequest, hs, catchHandler,
      jsTruthy, jLookup, jsToString]
  · simp [kastelaRequest, request, requestTry, axiosRequest, hs, catchHandler,
      jsTruthy, hY, jsToString]

/-- C4 amended witness: a concrete 404 with error field boom yields
message boom, and with plain body oops yields message oops. -/
theorem nonsuccess_error_messages_witness :
    kastelaRequest (.response { status := 404
                                body := JValue.obj [("error", JValue.str "boom")]
                                versionHeader := none })
        = Except.error { message := "boom", response := none }
      ∧ kastelaRequest (.response { status := 404, body := JValue.str "oops"
                                    versionHeader := none })
        = Except.error { message := "oops", response := none } :=
  nonsuccess_error_messages 404 none "boom" "oops" (by decide) (by decide)

/-- C5: calling the generic proxy operation with type xml and no
rootTag option throws the local validation error before any network
request is issued: the trace contains zero dispatcher calls, in both
the positional variant (privacyProxyRequest) and the object-parameter
variant (privacyProxy of src/unnamed/part_000). -/
theorem proxy_xml_without_root_tag_no_network :
    ∀ (url method : String) (common : JValue) (h p b q : Option JValue),
      privacyProxyRequestTrace ProxyType.xml url method common
          { headers := h, params := p, body := b, query := q, rootTag := none }
        = ([], some "rootTag is required for xml")
      ∧ (privacyProxyRequestTrace ProxyType.xml url method common
          { headers := h, params := p, body := b, query := q, rootTag := none }).fst.length = 0
      ∧ privacyProxyTraceV0 ProxyType.xml url method common
          { headers := h, params := p, body := b, query := q, rootTag := none }
        = ([], some "rootTag is required for xml") :=
  fun _ _ _ _ _ _ _ => ⟨rfl, rfl, rfl⟩

/-- C6: a transport fault with no response is rethrown as-is, carrying
the fault message, in every revision dispatcher and for every
version-acceptance predicate, so the version-header check never
influences such calls. -/
theorem transport_fault_passthrough :
    ∀ (sat : Option String → Bool) (expected m : String),
      request sat expected (TransportResult.fault m)
          = Except.error { message := m, response := none }
        ∧ requestCryptoRevision (TransportResult.fault m)
          = Except.error { message := m, response := none } :=
  fun _ _ _ => ⟨rfl, rfl⟩

/-- C7: vault search with search x, size 10 and after cursor1 carries
exactly search=x, size=10, after=cursor1 in that order, both as the
URL query of src/index.ts vaultFetch and as the wire body of the
batched revision; omitting size and after omits those parameters
entirely. -/
theorem vault_fetch_query_params :
    vaultFetchQuery "x" (some 10) (some "cursor1")
        = [("search", "x"), ("size", "10"), ("after", "cursor1")]
      ∧ serializeQuery (vaultFetchQuery "x" (some 10) (some "cursor1"))
        = "search=x&size=10&after=cursor1"
      ∧ (∀ s : String, vaultFetchQuery s none none = [("search", s)])
      ∧ vaultFetchBodyV2 "v" (JValue.str "x") (some 10) (some "cursor1")
        = [("vault_id", JValue.str "v"), ("search", JValue.str "x"),
           ("size", JValue.num 10), ("after", JValue.str "cursor1")]
      ∧ (∀ vid s, vaultFetchBodyV2 vid s none none
        = [("vault_id", JValue.str vid), ("search", s)]) :=
  ⟨rfl, rfl, fun _ => rfl, rfl, fun _ _ => rfl⟩

/-- C8: the batched vaultStore renames the typed input with vaultID v1
and values a, b to the wire body with vault_id v1 and the same values,
posts it to the batched store path, and returns the tokens property of
the wire response unchanged, here the list t1, t2. -/
theorem vault_store_wire_round_trip :
    (vaultStoreEnvelopeV2 [{ vaultID := "v1"
                             values := [JValue.str "a", JValue.str "b"] }]).body
        = some (JValue.arr [JValue.obj [("vault_id", JValue.str "v1"),
            ("values", JValue.arr [JValue.str "a", JValue.str "b"])]])
      ∧ (vaultStoreEnvelopeV2 [{ vaultID := "v1"
                                 values := [JValue.str "a", JValue.str "b"] }]).method
        = "POST"
      ∧ (vaultStoreEnvelopeV2 [{ vaultID := "v1"
                                 values := [JValue.str "a", JValue.str "b"] }]).path
        = "/api/vault/store"
      ∧ vaultStoreResponseTokens
          (JValue.obj [("tokens", JValue.arr [JValue.str "t1", JValue.str "t2"])])
        = some (JValue.arr [JValue.str "t1", JValue.str "t2"]) :=
  ⟨rfl, rfl, rfl, rfl⟩

/-- C9: a 2xx response that carries no x-kastela-version header never
returns the body: the absent (undefined) header fails the semver
check, and the call throws the version-mismatch error whose actual
version renders as undefined. -/
theorem missing_version_header_rejected (r : HttpResponse)
    (hs : statusOk r.status = true) (hv : r.versionHeader = none) :
    kastelaRequest (.response r)
        = Except.error { message := mismatchMessage "v0.2" none, response := none }
      ∧ mismatchMessage "v0.2" none
        = "kastela server version mismatch, expected: v0.2.x, actual: undefined" := by
  constructor
  · simp [kastelaRequest, request, requestTry, axiosRequest, hs, hv,
      semverSatisfiesLine, catchHandler]
  · rfl

/-- C9 witness: a concrete 204 response without the header is rejected
with the mismatch message naming undefined. -/
theorem missing_version_header_rejected_witness :
    kastelaRequest (.response { status := 204, body := JValue.null
                                versionHeader := none })
        = Except.error { message := mismatchMessage "v0.2" none, response := none }
      ∧ mismatchMessage "v0.2" none
        = "kastela server version mismatch, expected: v0.2.x, actual: undefined" :=
  missing_version_header_rejected
    { status := 204, body := JValue.null, versionHeader := none } (by decide) rfl

/-- C10: a non-2xx response whose body is an object without an error
field, or an array, throws an error with the empty default message:
the body text is discarded because the object branch always reads the
error property, which is undefined there. -/
theorem nonsuccess_object_without_error_field (status : Nat)
    (hdr : Option String) (fields : List (String × JValue)) (xs : List JValue)
    (hs : statusOk status = false) (hf : jLookup fields "error" = none) :
    kastelaRequest (.response { status := status, body := JValue.obj fields
                                versionHeader := hdr })
        = Except.error { message := "", response := none }
      ∧ kastelaRequest (.response { status := status, body := JValue.arr xs
                                    versionHeader := hdr })
        = Except.error { message := "", response := none } := by
  constructor
  · simp [kastelaRequest, request, requestTry, axiosRequest, hs, catchHandler,
      jsTruthy, hf]
  · simp [kastelaRequest, request, requestTry, axiosRequest, hs, catchHandler,
      jsTruthy]

/-- C10 witness: a concrete 500 response with an object body lacking an
error field, and one with an array body, both yield the empty
message. -/
theorem nonsuccess_object_without_error_field_witness :
    kastelaRequest (.response { status := 500
                                body := JValue.obj [("message", JValue.str "nope")]
                                versionHeader := none })
        = Except.error { message := "", response := none }
      ∧ kastelaRequest (.response { status := 500
                                    body := JValue.arr [JValue.str "a"]
                                    versionHeader := none })
        = Except.error { message := "", response := none } :=
  nonsuccess_object_without_error_field 500 none
    [("message", JValue.str "nope")] [JValue.str "a"] (by decide) rfl
